import Mathlib

/-!
Shallow embedding of `orttraining/orttraining/python/training/orttrainer.py`
(the `ORTTrainer` front end): the model-description data model, the
`convert_model_loss_fn_to_onnx` export routine (dynamic-axis extraction,
sample-input gathering, dtype recording, the call into the trace exporter,
initializer renaming and the parameter/initializer subset assertion, the
optional internal postprocess), the `ORTTrainer.__init__` model/loss
classification, and the `train_step` / `_init_onnx_model_` / `save_as_onnx`
lifecycle with Python attribute semantics (reading a never-assigned
attribute raises `AttributeError`).
-/

/-- Numeric element-type tag of a tensor (`torch.dtype`). The particular
inhabitants are irrelevant to the embedded code, which only stores and
copies them. -/
inductive Dtype
  | float32
  | float64
  | int32
  | int64
deriving DecidableEq, Repr

/-- A torch tensor, reduced to the two observations the embedded code makes
of one: its dtype (read at `output_desc.dtype_ = sample_output.dtype`) and
its device (written by `.to(device=device)`). -/
structure Tensor where
  dtype : Dtype
  device : String
deriving DecidableEq, Repr

/-- One entry of a shape list in the model description: the Python code
distinguishes dimensions only by `isinstance(axis, str)` — a string is a
symbolic (dynamic) dimension, anything else is taken as static. -/
inductive Dim
  | static (n : Nat)
  | symbolic (s : String)
deriving DecidableEq, Repr

/-- One input or output entry of the validated model description
(`model_desc.inputs_` / `model_desc.outputs_` elements), with the fields
the embedded code reads or writes: `name_`, `shape_`, the loss flag and the
`dtype_` slot filled during export. -/
structure TensorSpec where
  name_ : String
  shape_ : List Dim
  is_loss : Bool := false
  dtype_ : Option Dtype := none
deriving DecidableEq, Repr

/-- The validated model description (`_ORTTrainerModelDesc`): ordered input
and output `TensorSpec` lists. The validation itself lives in
`model_desc_validation.py`, outside the staged sources; the claims below
quantify over already-validated descriptors. -/
structure ModelDesc where
  inputs_ : List TensorSpec
  outputs_ : List TensorSpec
deriving DecidableEq, Repr

/-- A named constant tensor of the exported graph
(`onnx_model.graph.initializer` element); only its `name` is read or
written by the embedded code. -/
structure Initializer where
  name : String
deriving DecidableEq, Repr

/-- A graph node (`onnx_model.graph.node` element); only its `input` name
list is read or written by the embedded code. -/
structure NodeProto where
  input : List String
deriving DecidableEq, Repr

/-- The exported ONNX graph, reduced to the two fields the embedded code
touches: the initializer list and the node list. -/
structure OnnxGraph where
  initializer : List Initializer
  node : List NodeProto
deriving DecidableEq, Repr

/-- Python `dict` lookup (`d[k]` / `k in d`) over an association list. -/
def dictFind {α : Type} (d : List (String × α)) (k : String) : Option α :=
  match d with
  | [] => none
  | (k2, v) :: rest => if k2 = k then some v else dictFind rest k

/-- Python `dict` assignment `d[k] = v`: replaces the value at an existing
key in place, appends a fresh key at the end. -/
def dictInsert {α : Type} (d : List (String × α)) (k : String) (v : α) :
    List (String × α) :=
  match d with
  | [] => [(k, v)]
  | (k2, v2) :: rest =>
      if k2 = k then (k, v) :: rest else (k2, v2) :: dictInsert rest k v

/-- The inner loop of the dynamic-axes scan, lines 173-176 / 182-184:
`for i, axis in enumerate(shape): if isinstance(axis, str): symbolic_axis[i] = axis`,
carrying the running index `i`. -/
def symbolicAxesFrom (i : Nat) : List Dim → List (Nat × String)
  | [] => []
  | Dim.static _ :: rest => symbolicAxesFrom (i + 1) rest
  | Dim.symbolic s :: rest => (i, s) :: symbolicAxesFrom (i + 1) rest

/-- The `symbolic_axis` dict built for one `TensorSpec` shape (indices start
at 0). -/
def buildSymbolicAxis (shape : List Dim) : List (Nat × String) :=
  symbolicAxesFrom 0 shape

/-- One pass of the dynamic-axes loop over a spec list (lines 172-178 and
180-186 are this same loop, run on `inputs_` and then on `outputs_`):
`if len(symbolic_axis): dynamic_axes[name_] = symbolic_axis`. -/
def addAxes (d : List (String × List (Nat × String))) (specs : List TensorSpec) :
    List (String × List (Nat × String)) :=
  match specs with
  | [] => d
  | spec :: rest =>
      let sa := buildSymbolicAxis spec.shape_
      addAxes (if sa.length ≠ 0 then dictInsert d spec.name_ sa else d) rest

/-- The `dynamic_axes` dict of `convert_model_loss_fn_to_onnx`, lines
171-186: first the scan over `model_desc.inputs_`, then over
`model_desc.outputs_`. -/
def buildDynamicAxes (desc : ModelDesc) : List (String × List (Nat × String)) :=
  addAxes (addAxes [] desc.inputs_) desc.outputs_

/-- The Python exceptions the embedded code can raise, each carrying what
the `raise` / failing operation carries (attribute or key name, or the
assertion / error message). -/
inductive PyError
  | attributeError (name : String)
  | nameError (name : String)
  | typeError (msg : String)
  | assertionError (msg : String)
  | valueError (msg : String)
  | runtimeError (msg : String)
  | keyError (name : String)
deriving DecidableEq, Repr

/-- `tensor.to(device=device)`: returns the tensor moved to `device`. -/
def tensorTo (t : Tensor) (device : String) : Tensor :=
  { t with device := device }

/-- The runtime value handed to export as `inputs`: the branches of the
`isinstance` chain at lines 191-198 (`torch.Tensor`, `dict`, `list`/`tuple`,
anything else). -/
inductive InputsVal
  | tensor (t : Tensor)
  | dict (m : List (String × Tensor))
  | seq (ts : List Tensor)
  | otherVal
deriving Repr

/-- The message of the `RuntimeError` at line 198. -/
def unexpectedInputMsg : String :=
  "Unexpected input type. Only torch.Tensor, or dict/list/tuple of torch.Tensor is supported."

/-- Line 194: `[inputs[k.name_].to(device=device) for k in model_desc.inputs_]`.
A name missing from the dict raises `KeyError` at the first offending input,
as the comprehension does. -/
def gatherFromDict (m : List (String × Tensor)) (specs : List TensorSpec)
    (device : String) : Except PyError (List Tensor) :=
  match specs with
  | [] => Except.ok []
  | k :: rest =>
      match dictFind m k.name_ with
      | none => Except.error (PyError.keyError k.name_)
      | some t =>
          match gatherFromDict m rest device with
          | Except.error e => Except.error e
          | Except.ok ts => Except.ok (tensorTo t device :: ts)

/-- Line 196: `[input.to(device=device) for i, input in enumerate(inputs) if i < len(model_desc.inputs_)]`,
carrying the running index `i`; `n` is `len(model_desc.inputs_)`. -/
def gatherFromSeqAux (i n : Nat) (device : String) : List Tensor → List Tensor
  | [] => []
  | t :: rest =>
      if i < n then tensorTo t device :: gatherFromSeqAux (i + 1) n device rest
      else gatherFromSeqAux (i + 1) n device rest

/-- The list/tuple branch of the sample-input gathering. -/
def gatherFromSeq (ts : List Tensor) (n : Nat) (device : String) : List Tensor :=
  gatherFromSeqAux 0 n device ts

/-- Lines 191-198 of `convert_model_loss_fn_to_onnx`: normalize a bare
tensor to a one-element list (line 191-192), then dispatch on the container
kind; any other container raises the `RuntimeError` of line 198. -/
def gatherSampleInputs (inputs : InputsVal) (desc : ModelDesc) (device : String) :
    Except PyError (List Tensor) :=
  match inputs with
  | InputsVal.tensor t =>
      -- `inputs = [inputs]` makes the list branch apply to `[t]`
      Except.ok (gatherFromSeq [t] desc.inputs_.length device)
  | InputsVal.dict m => gatherFromDict m desc.inputs_ device
  | InputsVal.seq ts => Except.ok (gatherFromSeq ts desc.inputs_.length device)
  | InputsVal.otherVal => Except.error (PyError.runtimeError unexpectedInputMsg)

/-- What the wrapped model's forward pass returns at line 207: a bare tensor
or a sequence of tensors. -/
inductive ForwardResult
  | single (t : Tensor)
  | seq (ts : List Tensor)

/-- Lines 208-209: `if isinstance(sample_outputs, torch.Tensor): sample_outputs = [sample_outputs]`. -/
def coerceOutputs : ForwardResult → List Tensor
  | ForwardResult.single t => [t]
  | ForwardResult.seq ts => ts

/-- Lines 210-211: `for sample_output, output_desc in zip(sample_outputs, model_desc.outputs_): output_desc.dtype_ = sample_output.dtype`.
`zip` stops at the shorter list; the specs beyond it stay untouched. -/
def recordDtypes : List Tensor → List TensorSpec → List TensorSpec
  | _, [] => []
  | [], spec :: rest => spec :: rest
  | t :: ts, spec :: rest => { spec with dtype_ := some t.dtype } :: recordDtypes ts rest

/-- A torch module, reduced to the one observation the embedded code makes
of one after wrapping: its `named_parameters()` name/tensor pairs. -/
structure TorchModule where
  namedParameters : List (String × Tensor)

/-- The value returned by `wrap_for_input_match(model, loss_fn, input_names)`
(defined outside the staged sources; modelled from the spec: a single
callable whose positional-argument order matches the descriptor inputs,
carrying the original module as its `model_` attribute). `forward` is its
one sample evaluation at line 207; `model_` is the attribute tested by
`hasattr(model, 'model_')` at line 252; `namedParameters` is the wrapped
module's own `named_parameters()` used when `model_` is absent. -/
structure WrappedModel where
  forward : List Tensor → ForwardResult
  model_ : Option TorchModule
  namedParameters : List (String × Tensor)

/-- Line 252: `model.model_.named_parameters() if hasattr(model, 'model_') else model.named_parameters()`
(`model` is the wrapped model from line 203). -/
def reconcileParams (w : WrappedModel) : List (String × Tensor) :=
  match w.model_ with
  | some inner => inner.namedParameters
  | none => w.namedParameters

/-- The wrapper-introduced initializer name marker stripped at lines
239-248: the string literal `'model_.'`. -/
def modelDotStr : String := "model_."

/-- Python `s.startswith(pre)`: the prefix test, over the character lists
(kernel-computable, unlike `String.startsWith`, and equal to it). -/
def strStartsWith (s pre : String) : Bool := pre.data.isPrefixOf s.data

/-- Lines 240-244: one pass over `onnx_model.graph.initializer` that builds
`replace_name_dict` (old prefixed name, unprefixed name) and renames each
matching initializer in place. Returns the dict and the renamed list. -/
def buildRenames : List Initializer → List (String × String) × List Initializer
  | [] => ([], [])
  | n :: rest =>
      let p := buildRenames rest
      if strStartsWith n.name modelDotStr then
        let nn := n.name.drop modelDotStr.length
        ((n.name, nn) :: p.1, { name := nn } :: p.2)
      else
        (p.1, n :: p.2)

/-- Lines 245-248: `for i, name in enumerate(n.input): if name in replace_name_dict: n.input[i] = replace_name_dict[name]`. -/
def renameNodeInputs (d : List (String × String)) (n : NodeProto) : NodeProto :=
  { input := n.input.map fun s =>
      match dictFind d s with
      | some nn => nn
      | none => s }

/-- The whole renaming pass of lines 239-248 over a graph. -/
def renameAll (g : OnnxGraph) : OnnxGraph :=
  let p := buildRenames g.initializer
  { initializer := p.2, node := g.node.map (renameNodeInputs p.1) }

/-- The assertion message at lines 255-256 (a fixed string; it does not
mention any parameter name). -/
def reconcileMsg : String :=
  "Initializer names do not match between PyTorch model and ONNX model, please report a bug to ONNX Runtime."

/-- `set(ps).issubset(set(ts))` over name lists. -/
def subsetOfNames (ps ts : List String) : Bool :=
  ps.all fun p => ts.contains p

/-- Lines 253-256: assert that every named-parameter name is among the
initializer names, else raise `AssertionError` with the fixed message. -/
def checkInitializerMatch (ps ts : List String) : Except PyError Unit :=
  if subsetOfNames ps ts then Except.ok () else Except.error (PyError.assertionError reconcileMsg)

/-- The parameter/initializer consistency step as invoked by
`convert_model_loss_fn_to_onnx`: parameter names from the wrapped model
(line 252) against the post-rename initializer names (line 254). -/
def reconcileCheck (w : WrappedModel) (renamed : OnnxGraph) : Except PyError Unit :=
  checkInitializerMatch ((reconcileParams w).map Prod.fst)
    (renamed.initializer.map Initializer.name)

/-- The `loss_fn` argument as `ORTTrainer.__init__` inspects it: a callable
with some number of parameters (`callable(loss_fn)` and
`len(signature(loss_fn).parameters)`), or a non-callable object. -/
inductive LossVal
  | callableFn (arity : Nat)
  | nonCallable
deriving DecidableEq, Repr

/-- The `model` argument as `ORTTrainer.__init__` classifies it (lines
130-140): a `torch.nn.Module`, an `onnx.ModelProto`, or anything else. -/
inductive ModelVal
  | torchModule (m : TorchModule)
  | onnxModel (g : OnnxGraph)
  | otherObject

/-- The torch-version observations the export options depend on (lines
221-225): whether `torch.__version__ > '1.4.0'` and `>= '1.6.0'`. -/
structure TorchVersion where
  gt140 : Bool
  ge160 : Bool
deriving DecidableEq, Repr

/-- The value bound to the `training` export option: `True` before torch
1.6, `torch.onnx.TrainingMode.TRAINING` from 1.6 on (lines 218 and
224-225). -/
inductive TrainingArg
  | boolVal (b : Bool)
  | trainingModeTraining
deriving DecidableEq, Repr

/-- Whether the `training` option enables training-mode export semantics
(both `True` and `TrainingMode.TRAINING` do). -/
def trainingEnabled : TrainingArg → Bool
  | TrainingArg.boolVal b => b
  | TrainingArg.trainingModeTraining => true

/-- The arguments `torch.onnx._export` is invoked with at lines 227-235
(the positional sample-inputs tuple and every keyword argument; the
`BytesIO` buffer is represented by the exporter returning the graph). -/
structure ExportArgs where
  sample_inputs : List Tensor
  input_names : List String
  output_names : List String
  opset_version : Nat
  dynamic_axes : List (String × List (Nat × String))
  retain_param_name : Bool
  example_outputs : List Tensor
  do_constant_folding : Bool
  training : TrainingArg
  enable_onnx_checker : Option Bool
deriving DecidableEq, Repr

/-- The observable side effects of one export pipeline run, in order: the
sample forward evaluation (line 207), the trace-export backend call (lines
227-235) with the arguments it received, and each postprocess pass
application (line 259 inside the converter, lines 274-278 in
`_init_onnx_model_`). -/
inductive Event
  | forwardRun
  | exportBackendCall (args : ExportArgs)
  | internalPostprocess
  | extraPostprocess
deriving DecidableEq, Repr

/-- The export calls recorded in an event list. -/
def exportCallsOf (evs : List Event) : List ExportArgs :=
  evs.filterMap fun e =>
    match e with
    | Event.exportBackendCall a => some a
    | _ => none

/-- The keyword/positional arguments assembled for `torch.onnx._export`
(lines 214-235): `training=True`, upgraded to `TrainingMode.TRAINING` on
torch >= 1.6; `enable_onnx_checker=False` only on torch > 1.4;
`_retain_param_name=True`; `do_constant_folding=False`. -/
def mkExportArgs (sample_inputs : List Tensor) (input_names output_names : List String)
    (opset_version : Nat) (dynamic_axes : List (String × List (Nat × String)))
    (example_outputs : List Tensor) (tv : TorchVersion) : ExportArgs :=
  { sample_inputs := sample_inputs
    input_names := input_names
    output_names := output_names
    opset_version := opset_version
    dynamic_axes := dynamic_axes
    retain_param_name := true
    example_outputs := example_outputs
    do_constant_folding := false
    training := if tv.ge160 then TrainingArg.trainingModeTraining
                else TrainingArg.boolVal true
    enable_onnx_checker := if tv.gt140 then some false else none }

/-- Lines 200-261 of `convert_model_loss_fn_to_onnx`: everything after the
sample inputs were gathered. `wrap_for_input_match` (line 203, defined
outside the staged sources; modelled from the spec as producing the single
positional callable), `torchOnnxExport` (`torch.onnx._export` composed with
`onnx.load_model_from_string`, lines 227-237) and `run_postprocess`
(`postprocess.run_postprocess`, line 259) are explicit function arguments.
`model.eval()` / `torch.no_grad()` / `model.train()` at lines 205-212 only
toggle evaluation mode and are not observed here. -/
def convertAfterGather
    (wrap_for_input_match : TorchModule → Option LossVal → List String → WrappedModel)
    (torchOnnxExport : ExportArgs → OnnxGraph)
    (run_postprocess : OnnxGraph → OnnxGraph)
    (tv : TorchVersion)
    (model : TorchModule) (loss_fn : Option LossVal) (model_desc : ModelDesc)
    (opset_version : Nat) (enable_internal_postprocess : Bool)
    (sample_inputs : List Tensor) :
    List Event × Except PyError (OnnxGraph × List TensorSpec) :=
  -- lines 188-189
  let input_names := model_desc.inputs_.map fun i => i.name_
  let output_names := model_desc.outputs_.map fun o => o.name_
  -- line 203
  let model := wrap_for_input_match model loss_fn input_names
  -- lines 207-209
  let sample_outputs := coerceOutputs (model.forward sample_inputs)
  -- lines 210-211 (in-place mutation of model_desc.outputs_)
  let outputsAfter := recordDtypes sample_outputs model_desc.outputs_
  -- lines 214-235
  let args := mkExportArgs sample_inputs input_names output_names opset_version
    (buildDynamicAxes model_desc) sample_outputs tv
  -- line 237
  let onnx_model := torchOnnxExport args
  -- lines 239-248
  let renamed := renameAll onnx_model
  -- lines 250-256
  match reconcileCheck model renamed with
  | Except.error e =>
      ([Event.forwardRun, Event.exportBackendCall args], Except.error e)
  | Except.ok _ =>
      -- lines 258-261
      if enable_internal_postprocess then
        ([Event.forwardRun, Event.exportBackendCall args, Event.internalPostprocess],
         Except.ok (run_postprocess renamed, outputsAfter))
      else
        ([Event.forwardRun, Event.exportBackendCall args],
         Except.ok (renamed, outputsAfter))

/-- `convert_model_loss_fn_to_onnx` (lines 169-261): the dynamic-axes map
and name lists come from the descriptor (lines 171-189), the sample inputs
are gathered per container kind (lines 191-198, aborting the run before any
tracing on an unsupported container), and the rest is `convertAfterGather`.
Returns the events of the run and either the raised exception or the
resulting graph together with the mutated `model_desc.outputs_` list. -/
def convert_model_loss_fn_to_onnx
    (wrap_for_input_match : TorchModule → Option LossVal → List String → WrappedModel)
    (torchOnnxExport : ExportArgs → OnnxGraph)
    (run_postprocess : OnnxGraph → OnnxGraph)
    (tv : TorchVersion)
    (model : TorchModule) (loss_fn : Option LossVal) (model_desc : ModelDesc)
    (device : String) (inputs : InputsVal) (opset_version : Nat)
    (enable_internal_postprocess : Bool) :
    List Event × Except PyError (OnnxGraph × List TensorSpec) :=
  match gatherSampleInputs inputs model_desc device with
  | Except.error e => ([], Except.error e)
  | Except.ok sample_inputs =>
      convertAfterGather wrap_for_input_match torchOnnxExport run_postprocess tv
        model loss_fn model_desc opset_version enable_internal_postprocess
        sample_inputs

/-- Line 114: `loss_fn is None or (callable(loss_fn) and len(signature(loss_fn).parameters) == 2)`. -/
def lossFnValid : Option LossVal → Bool
  | none => true
  | some (LossVal.callableFn a) => a == 2
  | some LossVal.nonCallable => false

/-- Message of the assertion at line 110. -/
def modelRequiredMsg : String :=
  "'model' is required and must be either a 'torch.nn.Module' or ONNX model"

/-- Message of the assertion at line 111. -/
def modelDescDictMsg : String := "'model_desc' must be a 'dict'"

/-- Message of the assertion at lines 112-113. -/
def optimConfigMsg : String :=
  "'optim_config' is required and must be any of 'AdamConfig', 'LambConfig' or 'SGDConfig'"

/-- Message of the assertion at lines 114-115. -/
def lossFnTypeMsg : String :=
  "'loss_fn' must be either 'None' or a callable with two parameters"

/-- Message of the assertion at lines 116-117. -/
def optionsTypeMsg : String :=
  "'loss_fn' must be either 'None' or 'ORTTrainerOptions'"

/-- Message of the assertion at line 136. -/
def lossFnOnnxMsg : String :=
  "'loss_fn' must not be specified when 'model' is an ONNX model"

/-- Message of the `ValueError` at line 140. -/
def modelTypeMsg : String :=
  "'model' must be either 'torch.nn.Module' or 'onnx.ModelProto'"

/-- A Python attribute slot: never assigned (reading raises
`AttributeError`), assigned `None`, or assigned a value. -/
inductive PyAttr (α : Type)
  | absent
  | pyNone
  | val (a : α)

/-- Reading attribute `name` from slot `a`: `AttributeError` when the slot
was never assigned, else the (possibly `None`) value. -/
def readAttr {α : Type} (a : PyAttr α) (name : String) : Except PyError (Option α) :=
  match a with
  | PyAttr.absent => Except.error (PyError.attributeError name)
  | PyAttr.pyNone => Except.ok none
  | PyAttr.val x => Except.ok (some x)

/-- The attribute state of an `ORTTrainer` instance. `__init__` (lines
108-144) assigns exactly `_torch_model`, `_onnx_model`, `_loss_fn`,
`model_desc`, `optim_config` and `options`; every other attribute the later
methods read (`torch_model_`, `loss_fn`, `opset_version`,
`_enable_internal_postprocess`, `_extra_postprocess`, `onnx_model_`) is
never assigned before they run, and `onnx_model` / `_onnx_model_` are
assigned only inside `_init_onnx_model_` (lines 271 and 275). -/
structure ORTTrainerState where
  torchModelAttr : PyAttr TorchModule
  onnxModelAttr : PyAttr OnnxGraph
  lossFnAttr : PyAttr LossVal
  modelDescAttr : PyAttr ModelDesc
  torchModelTrailAttr : PyAttr TorchModule
  lossFnPlainAttr : PyAttr LossVal
  opsetVersionAttr : PyAttr Nat
  enableInternalAttr : PyAttr Bool
  extraPostAttr : PyAttr Unit
  onnxModelPlainAttr : PyAttr OnnxGraph
  onnxModelTrailAttr : PyAttr OnnxGraph

/-- The state `__init__` leaves behind on the `torch.nn.Module` branch
(lines 128-134): `_torch_model = model`, `_onnx_model = None`,
`_loss_fn = loss_fn`; nothing else assigned. -/
def initStateTorch (m : TorchModule) (loss_fn : Option LossVal) (desc : ModelDesc) :
    ORTTrainerState :=
  { torchModelAttr := PyAttr.val m
    onnxModelAttr := PyAttr.pyNone
    lossFnAttr := match loss_fn with
                  | none => PyAttr.pyNone
                  | some l => PyAttr.val l
    modelDescAttr := PyAttr.val desc
    torchModelTrailAttr := PyAttr.absent
    lossFnPlainAttr := PyAttr.absent
    opsetVersionAttr := PyAttr.absent
    enableInternalAttr := PyAttr.absent
    extraPostAttr := PyAttr.absent
    onnxModelPlainAttr := PyAttr.absent
    onnxModelTrailAttr := PyAttr.absent }

/-- The state `__init__` leaves behind on the `onnx.ModelProto` branch
(lines 128-129 and 135-138): `_torch_model = None`, `_onnx_model = model`,
`_loss_fn = None`. -/
def initStateOnnx (g : OnnxGraph) (desc : ModelDesc) : ORTTrainerState :=
  { torchModelAttr := PyAttr.pyNone
    onnxModelAttr := PyAttr.val g
    lossFnAttr := PyAttr.pyNone
    modelDescAttr := PyAttr.val desc
    torchModelTrailAttr := PyAttr.absent
    lossFnPlainAttr := PyAttr.absent
    opsetVersionAttr := PyAttr.absent
    enableInternalAttr := PyAttr.absent
    extraPostAttr := PyAttr.absent
    onnxModelPlainAttr := PyAttr.absent
    onnxModelTrailAttr := PyAttr.absent }

/-- `ORTTrainer.__init__` (lines 108-144): the basic assertions in source
order, then the model/loss classification of lines 128-140. `descIsDict`,
`optimOk` and `optionsOk` stand for the `isinstance` facts the three
structural assertions test; `model = none` is Python `model=None`. The
assertion at lines 131-132 (`loss_fn is None or isinstance(model, torch.nn.Module)`)
is a tautology inside its branch and cannot fire. -/
def ortTrainerInit (model : Option ModelVal) (descIsDict : Bool)
    (model_desc : ModelDesc) (optimOk : Bool) (loss_fn : Option LossVal)
    (optionsOk : Bool) : Except PyError ORTTrainerState :=
  if model.isNone then Except.error (PyError.assertionError modelRequiredMsg)
  else if !descIsDict then Except.error (PyError.assertionError modelDescDictMsg)
  else if !optimOk then Except.error (PyError.assertionError optimConfigMsg)
  else if !lossFnValid loss_fn then Except.error (PyError.assertionError lossFnTypeMsg)
  else if !optionsOk then Except.error (PyError.assertionError optionsTypeMsg)
  else
    match model with
    | some (ModelVal.torchModule m) =>
        Except.ok (initStateTorch m loss_fn model_desc)
    | some (ModelVal.onnxModel g) =>
        if loss_fn.isSome then Except.error (PyError.assertionError lossFnOnnxMsg)
        else Except.ok (initStateOnnx g model_desc)
    | some ModelVal.otherObject => Except.error (PyError.valueError modelTypeMsg)
    | none => Except.error (PyError.assertionError modelRequiredMsg)

/-- Both rejection messages for a `model` that is neither a
`torch.nn.Module` nor an `onnx.ModelProto` state that the model must be one
of the two: the `ValueError` of line 140 and (for `model=None`) the
assertion of line 110. -/
def isUnrecognizedModelTypeError : PyError → Bool
  | PyError.valueError msg => msg == modelTypeMsg
  | PyError.assertionError msg => msg == modelRequiredMsg
  | _ => false

/-- `ORTTrainer._init_onnx_model_` (lines 263-280), reads and effects in
source order. Line 264 reads `self._onnx_model`; line 267 reads
`self._torch_model`; line 268 evaluates `self.torch_model_.cpu()` — the
attribute `torch_model_` is never assigned anywhere in the class, so this
raises `AttributeError` (were it `None`, calling `.cpu()` on `None` would
raise `AttributeError` for `cpu`). Line 271 would then evaluate the call's
arguments left to right: `self._torch_model`, `self.loss_fn` (never
assigned), `self.model_desc`, `torch.device('cpu')`, the bare name
`inputs` — which is not bound in the method (its parameter is `*input`), so
a `NameError` would follow; the call itself could never bind (the method
lacks `self`, so `opset_version` would receive two values). No branch
reaches the postprocess calls of lines 274-278. -/
def initOnnxModelStep (s : ORTTrainerState) : List Event × Except PyError ORTTrainerState :=
  match readAttr s.onnxModelAttr "_onnx_model" with
  | Except.error e => ([], Except.error e)
  | Except.ok (some _) => ([], Except.ok s)
  | Except.ok none =>
      match readAttr s.torchModelAttr "_torch_model" with
      | Except.error e => ([], Except.error e)
      | Except.ok none => ([], Except.ok s)
      | Except.ok (some _) =>
          match readAttr s.torchModelTrailAttr "torch_model_" with
          | Except.error e => ([], Except.error e)
          | Except.ok none => ([], Except.error (PyError.attributeError "cpu"))
          | Except.ok (some _) =>
              match readAttr s.lossFnPlainAttr "loss_fn" with
              | Except.error e => ([], Except.error e)
              | Except.ok _ =>
                  match readAttr s.modelDescAttr "model_desc" with
                  | Except.error e => ([], Except.error e)
                  | Except.ok _ => ([], Except.error (PyError.nameError "inputs"))

/-- `ORTTrainer.train_step` (lines 283-298): `if self._onnx_model is None: self._init_onnx_model_(*input)`.
The `input` data never reaches the initializer (its body never reads its
`*input` parameter), so it is not a parameter here. An exception leaves the
instance state unchanged (nothing is assigned before any raising point). -/
def train_step (s : ORTTrainerState) : List Event × Except PyError ORTTrainerState :=
  match readAttr s.onnxModelAttr "_onnx_model" with
  | Except.error e => ([], Except.error e)
  | Except.ok (some _) => ([], Except.ok s)
  | Except.ok none => initOnnxModelStep s

/-- `ORTTrainer.save_as_onnx` (lines 158-167): the body is `pass` — no
read, no write, no exception, no event, for every instance state and every
path. -/
def save_as_onnx (s : ORTTrainerState) (path : String) :
    List Event × Except PyError ORTTrainerState :=
  ([], Except.ok s)

/-- Whether the character list `nd` occurs contiguously in `hay`. -/
def hasSubstr : List Char → List Char → Bool
  | [], nd => nd.isEmpty
  | c :: t, nd => nd.isPrefixOf (c :: t) || hasSubstr t nd

/-- Whether `msg` names (contains as a substring) the string `nm`. -/
def mentions (msg nm : String) : Bool :=
  hasSubstr msg.data nm.data

/-! ## Helper lemmas -/

theorem recordDtypes_length (ts : List Tensor) (specs : List TensorSpec) :
    (recordDtypes ts specs).length = specs.length := by
  induction specs generalizing ts with
  | nil => cases ts <;> rfl
  | cons spec rest ih =>
      cases ts with
      | nil => rfl
      | cons t ts2 => simp [recordDtypes, ih]

theorem recordDtypes_get_lt (ts : List Tensor) (specs : List TensorSpec) :
    ∀ (i : Nat) (t : Tensor) (spec : TensorSpec), ts[i]? = some t → specs[i]? = some spec →
      (recordDtypes ts specs)[i]? = some { spec with dtype_ := some t.dtype } := by
  induction ts generalizing specs with
  | nil => intro i t spec ht; simp at ht
  | cons t0 ts2 ih =>
      intro i t spec ht hs
      cases specs with
      | nil => simp at hs
      | cons s0 ss2 =>
          cases i with
          | zero =>
              simp at ht hs
              subst ht; subst hs
              simp [recordDtypes]
          | succ j =>
              simp at ht hs
              simpa [recordDtypes] using ih ss2 j t spec ht hs

theorem recordDtypes_get_ge (ts : List Tensor) (specs : List TensorSpec) :
    ∀ (i : Nat), ts.length ≤ i → (recordDtypes ts specs)[i]? = specs[i]? := by
  induction ts generalizing specs with
  | nil => intro i _; cases specs <;> rfl
  | cons t0 ts2 ih =>
      intro i hi
      cases specs with
      | nil => rfl
      | cons s0 ss2 =>
          cases i with
          | zero => simp at hi
          | succ j =>
              simp at hi
              simpa [recordDtypes] using ih ss2 j hi

theorem recordDtypes_take (ts : List Tensor) (specs : List TensorSpec) :
    recordDtypes (ts.take specs.length) specs = recordDtypes ts specs := by
  induction specs generalizing ts with
  | nil => cases ts <;> rfl
  | cons s0 ss2 ih =>
      cases ts with
      | nil => rfl
      | cons t0 ts2 => simp [recordDtypes, List.take, ih]

/-! ## Claim theorems -/

/-- C10: runtime-observed dtypes are recorded by pairing the sample outputs
with the declared output specs positionally, stopping at the shorter list:
the result keeps the declared length, position `i` gets the sample dtype
when both lists reach `i`, declared outputs beyond the sample list are
returned unchanged (their `dtype_` stays as it was, i.e. unset, and nothing
fails), and sample outputs beyond the declared list have no effect
(truncating them to the declared length gives the same result). -/
theorem c10_dtype_recording (ts : List Tensor) (specs : List TensorSpec) :
    (recordDtypes ts specs).length = specs.length ∧
    (∀ (i : Nat) (t : Tensor) (spec : TensorSpec), ts[i]? = some t → specs[i]? = some spec →
        (recordDtypes ts specs)[i]? = some { spec with dtype_ := some t.dtype }) ∧
    (∀ (i : Nat), ts.length ≤ i → (recordDtypes ts specs)[i]? = specs[i]?) ∧
    recordDtypes (ts.take specs.length) specs = recordDtypes ts specs :=
  ⟨recordDtypes_length ts specs, recordDtypes_get_lt ts specs,
   recordDtypes_get_ge ts specs, recordDtypes_take ts specs⟩

/-- A concrete run of the dtype recording: one sample output, two declared
outputs — the first spec receives the observed dtype, the surplus spec is
untouched. -/
theorem c10_dtype_recording_witness :
    ([{ dtype := Dtype.int64, device := "cpu" }] : List Tensor)[0]? =
      some { dtype := Dtype.int64, device := "cpu" } ∧
    ([{ name_ := "y", shape_ := [] }, { name_ := "z", shape_ := [] }] :
        List TensorSpec)[0]? = some { name_ := "y", shape_ := [] } ∧
    (recordDtypes [{ dtype := Dtype.int64, device := "cpu" }]
        [{ name_ := "y", shape_ := [] }, { name_ := "z", shape_ := [] }])[0]? =
      some { name_ := "y", shape_ := [], dtype_ := some Dtype.int64 } :=
  ⟨rfl, rfl,
    (c10_dtype_recording [{ dtype := Dtype.int64, device := "cpu" }]
        [{ name_ := "y", shape_ := [] }, { name_ := "z", shape_ := [] }]).2.1
      0 { dtype := Dtype.int64, device := "cpu" } { name_ := "y", shape_ := [] }
      rfl rfl⟩

/-- C3: the three accepted (model, loss_fn) combinations succeed — native
module with no loss, native module with a two-argument callable, ONNX graph
with no loss — while an ONNX graph together with a loss function fails on
the assertion of line 136 (the unsupported-combination message), and a
model that is neither kind (another object, or `None`) is rejected with a
message stating the model must be a `torch.nn.Module` or ONNX model (the
`ValueError` of line 140, resp. the assertion of line 110). -/
theorem c3_model_loss_binding (m : TorchModule) (g : OnnxGraph) (desc : ModelDesc) :
    ortTrainerInit (some (ModelVal.torchModule m)) true desc true none true =
      Except.ok (initStateTorch m none desc) ∧
    ortTrainerInit (some (ModelVal.torchModule m)) true desc true
        (some (LossVal.callableFn 2)) true =
      Except.ok (initStateTorch m (some (LossVal.callableFn 2)) desc) ∧
    ortTrainerInit (some (ModelVal.onnxModel g)) true desc true none true =
      Except.ok (initStateOnnx g desc) ∧
    ortTrainerInit (some (ModelVal.onnxModel g)) true desc true
        (some (LossVal.callableFn 2)) true =
      Except.error (PyError.assertionError lossFnOnnxMsg) ∧
    ortTrainerInit (some ModelVal.otherObject) true desc true none true =
      Except.error (PyError.valueError modelTypeMsg) ∧
    ortTrainerInit none true desc true none true =
      Except.error (PyError.assertionError modelRequiredMsg) ∧
    isUnrecognizedModelTypeError (PyError.valueError modelTypeMsg) = true ∧
    isUnrecognizedModelTypeError (PyError.assertionError modelRequiredMsg) = true :=
  ⟨rfl, rfl, rfl, rfl, rfl, rfl, by decide, by decide⟩

/-! ## Concrete trainer instance for the lifecycle claims -/

/-- A concrete tensor for the demo instance. -/
def demoTensor : Tensor := { dtype := Dtype.float32, device := "cpu" }

/-- A concrete native module for the demo instance. -/
def demoModule : TorchModule := { namedParameters := [("weight", demoTensor)] }

/-- A concrete validated descriptor for the demo instance. -/
def demoDesc : ModelDesc :=
  { inputs_ := [{ name_ := "x", shape_ := [Dim.symbolic "batch", Dim.static 4] }],
    outputs_ := [{ name_ := "y", shape_ := [], is_loss := true }] }

/-- The trainer instance built from the native module `demoModule` — the
state `__init__` leaves behind, still uninitialized (`_onnx_model = None`). -/
def demoTrainer : ORTTrainerState := initStateTorch demoModule none demoDesc

/-- C1: for a trainer built from a native module the claimed behaviour —
first `train_step` exports and stores the graph, later ones skip export —
does not hold. Every `train_step` call, the first and each later one alike
(the instance state is unchanged by the raised exception, so repeated calls
evaluate the same expression), raises `AttributeError` at
`self.torch_model_.cpu()` (line 268: `torch_model_` is never assigned;
`__init__` assigns `_torch_model`), and no export-backend call happens at
all — the export count across N calls is 0, not 1. Even disregarding that
slip, line 271 stores the converted graph in `self.onnx_model` while the
guards of lines 264 and 297 test `self._onnx_model`, which no code path
ever sets to a non-`None` value after construction. -/
theorem c1_export_never_happens :
    ortTrainerInit (some (ModelVal.torchModule demoModule)) true demoDesc true none true =
      Except.ok demoTrainer ∧
    train_step demoTrainer = ([], Except.error (PyError.attributeError "torch_model_")) ∧
    exportCallsOf (train_step demoTrainer).1 = [] :=
  ⟨rfl, rfl, rfl⟩

/-- C2: `save_as_onnx` is a `pass` stub (lines 158-167): for every instance
state — the fresh `demoTrainer` before any step call included — it raises
nothing (in particular no not-built error), changes no state and records no
write, contradicting both halves of the claim. -/
theorem c2_save_is_noop (s : ORTTrainerState) (path : String) :
    save_as_onnx s path = ([], Except.ok s) := rfl

/-- C8: on the lazy-build path the internal normalization pass never runs
even once — the first `train_step` dies with `AttributeError` before any
postprocess call site (and in the source the internal pass is invoked at
two call sites, line 259 inside the converter and line 275 in
`_init_onnx_model_`, so the claimed exactly-once sequence is wrong in both
directions). -/
theorem c8_postprocess_never_runs :
    List.count Event.internalPostprocess (train_step demoTrainer).1 = 0 ∧
    List.count Event.extraPostprocess (train_step demoTrainer).1 = 0 ∧
    (train_step demoTrainer).2 = Except.error (PyError.attributeError "torch_model_") :=
  ⟨rfl, rfl, rfl⟩

/-! ## Renaming lemmas -/

theorem buildRenames_snd (inits : List Initializer) :
    (buildRenames inits).2 = inits.map fun n =>
      if strStartsWith n.name modelDotStr
      then { name := n.name.drop modelDotStr.length } else n := by
  induction inits with
  | nil => rfl
  | cons n rest ih =>
      by_cases h : strStartsWith n.name modelDotStr <;>
        simp [buildRenames, h, ih]

theorem buildRenames_fst_cons_pos (n : Initializer) (rest : List Initializer)
    (h : strStartsWith n.name modelDotStr) :
    (buildRenames (n :: rest)).1 =
      (n.name, n.name.drop modelDotStr.length) :: (buildRenames rest).1 := by
  simp [buildRenames, h]

theorem buildRenames_fst_cons_neg (n : Initializer) (rest : List Initializer)
    (h : ¬ strStartsWith n.name modelDotStr) :
    (buildRenames (n :: rest)).1 = (buildRenames rest).1 := by
  simp [buildRenames, h]

theorem mem_map_name_cons (n : Initializer) (rest : List Initializer) (s : String) :
    s ∈ (n :: rest).map Initializer.name ↔ s = n.name ∨ s ∈ rest.map Initializer.name := by
  rw [List.map_cons, List.mem_cons]

theorem buildRenames_lookup (inits : List Initializer) (s : String) :
    dictFind (buildRenames inits).1 s =
      if strStartsWith s modelDotStr ∧ s ∈ inits.map Initializer.name
      then some (s.drop modelDotStr.length) else none := by
  induction inits with
  | nil => simp [buildRenames, dictFind]
  | cons n rest ih =>
      by_cases hp : strStartsWith n.name modelDotStr
      · rw [buildRenames_fst_cons_pos n rest hp]
        by_cases he : n.name = s
        · subst he
          rw [show dictFind ((n.name, n.name.drop modelDotStr.length) :: (buildRenames rest).1) n.name = some (n.name.drop modelDotStr.length) from by simp [dictFind]]
          rw [if_pos ⟨hp, (mem_map_name_cons n rest n.name).mpr (Or.inl rfl)⟩]
        · rw [show dictFind ((n.name, n.name.drop modelDotStr.length) :: (buildRenames rest).1) s = dictFind (buildRenames rest).1 s from by simp [dictFind, he]]
          rw [ih]
          apply if_congr _ rfl rfl
          constructor
          · rintro ⟨h1, h2⟩
            exact ⟨h1, (mem_map_name_cons n rest s).mpr (Or.inr h2)⟩
          · rintro ⟨h1, h2⟩
            refine ⟨h1, ?_⟩
            rcases (mem_map_name_cons n rest s).mp h2 with h3 | h3
            · exact absurd h3.symm he
            · exact h3
      · rw [buildRenames_fst_cons_neg n rest hp]
        rw [ih]
        apply if_congr _ rfl rfl
        constructor
        · rintro ⟨h1, h2⟩
          exact ⟨h1, (mem_map_name_cons n rest s).mpr (Or.inr h2)⟩
        · rintro ⟨h1, h2⟩
          refine ⟨h1, ?_⟩
          rcases (mem_map_name_cons n rest s).mp h2 with h3 | h3
          · subst h3; exact absurd h1 hp
          · exact h3

theorem renameFun_eq (inits : List Initializer) :
    (fun s => match dictFind (buildRenames inits).1 s with
              | some nn => nn
              | none => s) =
      fun s => if strStartsWith s modelDotStr ∧ s ∈ inits.map Initializer.name
               then s.drop modelDotStr.length else s := by
  funext s
  rw [buildRenames_lookup]
  by_cases h : strStartsWith s modelDotStr ∧ s ∈ inits.map Initializer.name
  · rw [if_pos h, if_pos h]
  · rw [if_neg h, if_neg h]

theorem renameNodeInputs_spec (inits : List Initializer) (n : NodeProto) :
    renameNodeInputs (buildRenames inits).1 n =
      { input := n.input.map fun s =>
          if strStartsWith s modelDotStr ∧ s ∈ inits.map Initializer.name
          then s.drop modelDotStr.length else s } := by
  unfold renameNodeInputs
  rw [renameFun_eq]

/-- C6: after the rename pass with the wrapper marker string "model_.",
every initializer whose name carried the marker holds the unprefixed name
and every other initializer is unchanged (first conjunct, positionally);
every node input that exactly equals an old marked initializer name is
rewritten to its unprefixed form and every other node input is unchanged
(second conjunct); and the result does not depend on node visitation order:
each node is rewritten by the same keyed substitution independently, so
permuting the node list permutes the rewritten nodes (third conjunct). -/
theorem c6_name_reconciliation (g : OnnxGraph) :
    (∀ (i : Nat) (ini : Initializer), g.initializer[i]? = some ini →
        (renameAll g).initializer[i]? =
          some (if strStartsWith ini.name modelDotStr
                then { name := ini.name.drop modelDotStr.length } else ini)) ∧
    (∀ (j : Nat) (n : NodeProto), g.node[j]? = some n →
        (renameAll g).node[j]? = some
          { input := n.input.map fun s =>
              if strStartsWith s modelDotStr ∧ s ∈ g.initializer.map Initializer.name
              then s.drop modelDotStr.length else s }) ∧
    (∀ ns ns2 : List NodeProto, ns.Perm ns2 →
        (renameAll { initializer := g.initializer, node := ns }).node.Perm
          (renameAll { initializer := g.initializer, node := ns2 }).node) := by
  refine ⟨?_, ?_, ?_⟩
  · intro i ini hi
    show ((buildRenames g.initializer).2)[i]? = _
    rw [buildRenames_snd, List.getElem?_map, hi]
    rfl
  · intro j n hj
    show (g.node.map (renameNodeInputs (buildRenames g.initializer).1))[j]? = _
    rw [List.getElem?_map, hj]
    rw [show Option.map (renameNodeInputs (buildRenames g.initializer).1) (some n) =
        some (renameNodeInputs (buildRenames g.initializer).1 n) from rfl]
    rw [renameNodeInputs_spec]
  · intro ns ns2 hperm
    show (ns.map (renameNodeInputs (buildRenames g.initializer).1)).Perm
      (ns2.map (renameNodeInputs (buildRenames g.initializer).1))
    exact hperm.map (renameNodeInputs (buildRenames g.initializer).1)

/-- The spec's own reconciliation example as a concrete graph: initializers
`model_.weight` and `model_.bias`, one node referencing `model_.weight` and
an unrelated tensor `x`. -/
def c6Graph : OnnxGraph :=
  { initializer := [{ name := "model_.weight" }, { name := "model_.bias" }],
    node := [{ input := ["model_.weight", "x"] }] }

/-- A concrete run of the rename pass on `c6Graph`: the marked initializer
becomes `weight`, and the node's inputs become `[weight, x]`. -/
theorem c6_name_reconciliation_witness :
    c6Graph.initializer[0]? = some { name := "model_.weight" } ∧
    (renameAll c6Graph).initializer[0]? = some { name := "weight" } ∧
    c6Graph.node[0]? = some { input := ["model_.weight", "x"] } ∧
    (renameAll c6Graph).node[0]? = some { input := ["weight", "x"] } :=
  ⟨rfl,
   ((c6_name_reconciliation c6Graph).1 0 { name := "model_.weight" } rfl).trans
     (by decide),
   rfl,
   ((c6_name_reconciliation c6Graph).2.1 0 { input := ["model_.weight", "x"] } rfl).trans
     (by decide)⟩

theorem subsetOfNames_iff (ps ts : List String) :
    subsetOfNames ps ts = true ↔ ∀ p ∈ ps, p ∈ ts := by
  unfold subsetOfNames
  simp

/-- C7 counterexample: the claim states the initializer-mismatch failure
"names the missing parameters". It does not: for a wrapped model with the
single parameter `qz` and an exported graph with no initializer at all, the
post-rename consistency check fails with the fixed assertion message of
lines 255-256, and that message does not contain the missing parameter
name `qz` at all. -/
theorem c7_message_counterexample :
    reconcileCheck
        { forward := fun ts => ForwardResult.seq ts
          model_ := none
          namedParameters := [("qz", { dtype := Dtype.float32, device := "cpu" })] }
        (renameAll { initializer := [], node := [] }) =
      Except.error (PyError.assertionError reconcileMsg) ∧
    mentions reconcileMsg "qz" = false :=
  ⟨rfl, by decide⟩

/-- C7 (amended): after renaming, if the module's named-parameter names are
not a subset of the graph's initializer names, reconciliation fails with
the initializer-mismatch assertion carrying a fixed message (which does not
enumerate the missing parameters); if the subset relation holds, it
succeeds. -/
theorem c7_initializer_subset (w : WrappedModel) (g : OnnxGraph) :
    ((∀ p ∈ (reconcileParams w).map Prod.fst,
        p ∈ (renameAll g).initializer.map Initializer.name) →
      reconcileCheck w (renameAll g) = Except.ok ()) ∧
    ((¬ ∀ p ∈ (reconcileParams w).map Prod.fst,
        p ∈ (renameAll g).initializer.map Initializer.name) →
      reconcileCheck w (renameAll g) =
        Except.error (PyError.assertionError reconcileMsg)) := by
  constructor
  · intro h
    unfold reconcileCheck checkInitializerMatch
    rw [if_pos ((subsetOfNames_iff _ _).mpr h)]
  · intro h
    unfold reconcileCheck checkInitializerMatch
    rw [if_neg (fun hb => h ((subsetOfNames_iff _ _).mp hb))]

/-- A concrete run of the subset check in both directions: the parameter
`weight` is found among the renamed initializers, so reconciliation
succeeds; with parameter `bias` missing it fails with the fixed message. -/
theorem c7_initializer_subset_witness :
    reconcileCheck
        { forward := fun ts => ForwardResult.seq ts
          model_ := some { namedParameters := [("weight", { dtype := Dtype.float32, device := "cpu" })] }
          namedParameters := [] }
        (renameAll { initializer := [{ name := "model_.weight" }], node := [] }) =
      Except.ok () ∧
    reconcileCheck
        { forward := fun ts => ForwardResult.seq ts
          model_ := some { namedParameters := [("bias", { dtype := Dtype.float32, device := "cpu" })] }
          namedParameters := [] }
        (renameAll { initializer := [{ name := "model_.weight" }], node := [] }) =
      Except.error (PyError.assertionError reconcileMsg) :=
  ⟨(c7_initializer_subset
      { forward := fun ts => ForwardResult.seq ts
        model_ := some { namedParameters := [("weight", { dtype := Dtype.float32, device := "cpu" })] }
        namedParameters := [] }
      { initializer := [{ name := "model_.weight" }], node := [] }).1
    (by decide),
   (c7_initializer_subset
      { forward := fun ts => ForwardResult.seq ts
        model_ := some { namedParameters := [("bias", { dtype := Dtype.float32, device := "cpu" })] }
        namedParameters := [] }
      { initializer := [{ name := "model_.weight" }], node := [] }).2
    (by decide)⟩

theorem gatherFromSeqAux_eq (device : String) (ts : List Tensor) :
    ∀ i n : Nat, gatherFromSeqAux i n device ts =
      (ts.take (n - i)).map fun x => tensorTo x device := by
  induction ts with
  | nil => intro i n; simp [gatherFromSeqAux]
  | cons t rest ih =>
      intro i n
      by_cases h : i < n
      · rw [show n - i = (n - (i + 1)) + 1 from by omega]
        simp [gatherFromSeqAux, h, ih]
      · have h1 : n - i = 0 := by omega
        have h2 : n - (i + 1) = 0 := by omega
        simp [gatherFromSeqAux, h, ih, h1, h2]

theorem gatherFromDict_ok (m : List (String × Tensor)) (device : String) :
    ∀ specs : List TensorSpec, (∀ spec ∈ specs, (dictFind m spec.name_).isSome) →
      ∃ samples, gatherFromDict m specs device = Except.ok samples ∧
        samples.length = specs.length ∧
        ∀ (i : Nat) (spec : TensorSpec), specs[i]? = some spec →
          ∃ tv2, dictFind m spec.name_ = some tv2 ∧
            samples[i]? = some (tensorTo tv2 device) := by
  intro specs
  induction specs with
  | nil =>
      intro _
      exact ⟨[], rfl, rfl, by intro i spec h; simp at h⟩
  | cons k rest ih =>
      intro h
      have hk := h k (List.mem_cons_self k rest)
      rcases Option.isSome_iff_exists.mp hk with ⟨t, ht⟩
      rcases ih (fun spec hs => h spec (List.mem_cons_of_mem k hs)) with
        ⟨samples, hg, hlen, hidx⟩
      refine ⟨tensorTo t device :: samples, ?_, by simp [hlen], ?_⟩
      · simp [gatherFromDict, ht, hg]
      · intro i spec hs
        cases i with
        | zero =>
            simp at hs
            subst hs
            exact ⟨t, ht, by simp⟩
        | succ j =>
            simp at hs
            rcases hidx j spec hs with ⟨tv2, h1, h2⟩
            exact ⟨tv2, h1, by simpa using h2⟩

/-- C5: a bare tensor sample is handled exactly as the one-element sequence
it is coerced to; a mapping yields one sample per declared input, looked up
by input name and moved to the device, in declared order; an ordered
sequence is truncated to the number of declared inputs; and any other
container makes the whole converter fail with the unsupported-input
`RuntimeError` with an empty event list — no forward trace and no export
backend call has happened. -/
theorem c5_sample_input_containers (desc : ModelDesc) (device : String)
    (t : Tensor) (m : List (String × Tensor)) (ts : List Tensor)
    (wrapf : TorchModule → Option LossVal → List String → WrappedModel)
    (exportf : ExportArgs → OnnxGraph) (rp : OnnxGraph → OnnxGraph)
    (tv : TorchVersion) (mod : TorchModule) (lf : Option LossVal)
    (ops : Nat) (flag : Bool)
    (hm : ∀ spec ∈ desc.inputs_, (dictFind m spec.name_).isSome) :
    gatherSampleInputs (InputsVal.tensor t) desc device =
      gatherSampleInputs (InputsVal.seq [t]) desc device ∧
    (∃ samples, gatherSampleInputs (InputsVal.dict m) desc device =
        Except.ok samples ∧
      samples.length = desc.inputs_.length ∧
      ∀ (i : Nat) (spec : TensorSpec), desc.inputs_[i]? = some spec →
        ∃ tv2, dictFind m spec.name_ = some tv2 ∧
          samples[i]? = some (tensorTo tv2 device)) ∧
    gatherSampleInputs (InputsVal.seq ts) desc device =
      Except.ok ((ts.take desc.inputs_.length).map fun x => tensorTo x device) ∧
    convert_model_loss_fn_to_onnx wrapf exportf rp tv mod lf desc device
        InputsVal.otherVal ops flag =
      ([], Except.error (PyError.runtimeError unexpectedInputMsg)) := by
  refine ⟨rfl, ?_, ?_, rfl⟩
  · exact gatherFromDict_ok m device desc.inputs_ hm
  · show Except.ok (gatherFromSeq ts desc.inputs_.length device) = _
    rw [gatherFromSeq, gatherFromSeqAux_eq device ts 0 desc.inputs_.length,
      Nat.sub_zero]

/-- A concrete wrapper for witnesses: forwards the sample inputs unchanged,
keeps the original module as `model_`. -/
def demoWrap : TorchModule → Option LossVal → List String → WrappedModel :=
  fun mod _ _ =>
    { forward := fun ts => ForwardResult.seq ts
      model_ := some mod
      namedParameters := [] }

/-- A concrete export backend for witnesses: returns a fixed graph holding
the marked demo parameter. -/
def demoExport : ExportArgs → OnnxGraph :=
  fun _ => { initializer := [{ name := "model_.weight" }], node := [] }

/-- A concrete postprocess pass for witnesses: the identity rewrite. -/
def demoPost : OnnxGraph → OnnxGraph := fun g => g

/-- A concrete torch version for witnesses (later than 1.6). -/
def demoTv : TorchVersion := { gt140 := true, ge160 := true }

/-- A concrete run of the sample-input gathering: the dict sample for
`demoDesc` resolves its one declared input by name, and a two-element
sequence is truncated to the single declared input. -/
theorem c5_sample_input_containers_witness :
    (∀ spec ∈ demoDesc.inputs_,
      (dictFind [("x", demoTensor)] spec.name_).isSome) ∧
    gatherSampleInputs (InputsVal.seq [demoTensor, demoTensor]) demoDesc "cpu" =
      Except.ok (([demoTensor, demoTensor].take demoDesc.inputs_.length).map
        fun x => tensorTo x "cpu") :=
  ⟨by decide,
   (c5_sample_input_containers demoDesc "cpu" demoTensor [("x", demoTensor)]
      [demoTensor, demoTensor] demoWrap demoExport demoPost demoTv demoModule
      none 12 true (by decide)).2.2.1⟩

/-- C9: whenever the sample inputs were gathered successfully, the
trace-export backend is invoked exactly once, and its arguments are the
descriptor's input and output names in declared order, the derived
dynamic-axis map, a `training` flag that enables training-mode semantics
(on every torch version branch), constant folding disabled, the gathered
sample inputs as the positional arguments, and the previously captured
sample outputs as `example_outputs` — so the exporter does not need to
re-run the forward pass. -/
theorem c9_export_invocation
    (wrapf : TorchModule → Option LossVal → List String → WrappedModel)
    (exportf : ExportArgs → OnnxGraph) (rp : OnnxGraph → OnnxGraph)
    (tv : TorchVersion) (mod : TorchModule) (lf : Option LossVal)
    (desc : ModelDesc) (device : String) (inputs : InputsVal) (ops : Nat)
    (flag : Bool) (si : List Tensor)
    (hgather : gatherSampleInputs inputs desc device = Except.ok si) :
    ∃ args : ExportArgs,
      exportCallsOf (convert_model_loss_fn_to_onnx wrapf exportf rp tv mod lf
          desc device inputs ops flag).1 = [args] ∧
      args.input_names = desc.inputs_.map TensorSpec.name_ ∧
      args.output_names = desc.outputs_.map TensorSpec.name_ ∧
      args.dynamic_axes = buildDynamicAxes desc ∧
      trainingEnabled args.training = true ∧
      args.do_constant_folding = false ∧
      args.sample_inputs = si ∧
      args.example_outputs =
        coerceOutputs ((wrapf mod lf (desc.inputs_.map TensorSpec.name_)).forward si) := by
  have hconv : convert_model_loss_fn_to_onnx wrapf exportf rp tv mod lf desc
      device inputs ops flag =
      convertAfterGather wrapf exportf rp tv mod lf desc ops flag si := by
    unfold convert_model_loss_fn_to_onnx
    rw [hgather]
  refine ⟨mkExportArgs si (desc.inputs_.map TensorSpec.name_)
      (desc.outputs_.map TensorSpec.name_) ops (buildDynamicAxes desc)
      (coerceOutputs ((wrapf mod lf (desc.inputs_.map TensorSpec.name_)).forward si)) tv,
    ?_, rfl, rfl, rfl, ?_, rfl, rfl, rfl⟩
  · rw [hconv]
    unfold convertAfterGather
    dsimp only
    split
    · simp [exportCallsOf]
    · split <;> simp [exportCallsOf]
  · rcases tv with ⟨g1, g6⟩
    cases g6 <;> rfl

/-- A concrete successful run through the converter: the gathered sample
for a one-tensor sequence is `[demoTensor]` moved to cpu, and the export
backend receives exactly the descriptor-derived arguments. -/
theorem c9_export_invocation_witness :
    gatherSampleInputs (InputsVal.seq [demoTensor]) demoDesc "cpu" =
      Except.ok [tensorTo demoTensor "cpu"] ∧
    ∃ args : ExportArgs,
      exportCallsOf (convert_model_loss_fn_to_onnx demoWrap demoExport demoPost
          demoTv demoModule none demoDesc "cpu" (InputsVal.seq [demoTensor])
          12 true).1 = [args] ∧
      args.input_names = demoDesc.inputs_.map TensorSpec.name_ ∧
      args.output_names = demoDesc.outputs_.map TensorSpec.name_ ∧
      args.dynamic_axes = buildDynamicAxes demoDesc ∧
      trainingEnabled args.training = true ∧
      args.do_constant_folding = false ∧
      args.sample_inputs = [tensorTo demoTensor "cpu"] ∧
      args.example_outputs =
        coerceOutputs ((demoWrap demoModule none
          (demoDesc.inputs_.map TensorSpec.name_)).forward [tensorTo demoTensor "cpu"]) :=
  ⟨rfl,
   c9_export_invocation demoWrap demoExport demoPost demoTv demoModule none
     demoDesc "cpu" (InputsVal.seq [demoTensor]) 12 true
     [tensorTo demoTensor "cpu"] rfl⟩

theorem mem_symbolicAxesFrom (shape : List Dim) :
    ∀ (i j : Nat) (s : String), (j, s) ∈ symbolicAxesFrom i shape ↔
      ∃ k : Nat, j = i + k ∧ shape[k]? = some (Dim.symbolic s) := by
  induction shape with
  | nil =>
      intro i j s
      simp [symbolicAxesFrom]
  | cons d rest ih =>
      intro i j s
      cases d with
      | static n =>
          rw [symbolicAxesFrom, ih (i + 1)]
          constructor
          · rintro ⟨k, hk, hg⟩
            exact ⟨k + 1, by omega, by simpa using hg⟩
          · rintro ⟨k, hk, hg⟩
            cases k with
            | zero => simp at hg
            | succ k2 => exact ⟨k2, by omega, by simpa using hg⟩
      | symbolic s2 =>
          rw [symbolicAxesFrom, List.mem_cons, ih (i + 1)]
          constructor
          · rintro (heq | ⟨k, hk, hg⟩)
            · rw [Prod.mk.injEq] at heq
              exact ⟨0, by rw [heq.1, Nat.add_zero], by simp [heq.2]⟩
            · exact ⟨k + 1, by omega, by simpa using hg⟩
          · rintro ⟨k, hk, hg⟩
            cases k with
            | zero =>
                simp at hg
                exact Or.inl (by simp [hg, hk])
            | succ k2 =>
                exact Or.inr ⟨k2, by omega, by simpa using hg⟩

theorem mem_buildSymbolicAxis (shape : List Dim) (j : Nat) (s : String) :
    (j, s) ∈ buildSymbolicAxis shape ↔ shape[j]? = some (Dim.symbolic s) := by
  rw [buildSymbolicAxis, mem_symbolicAxesFrom shape 0 j s]
  constructor
  · rintro ⟨k, hk, hg⟩
    rwa [show j = k from by omega]
  · intro hg
    exact ⟨j, by omega, hg⟩

theorem buildSymbolicAxis_eq_nil (shape : List Dim) :
    buildSymbolicAxis shape = [] ↔
      ∀ (j : Nat) (s : String), shape[j]? ≠ some (Dim.symbolic s) := by
  rw [List.eq_nil_iff_forall_not_mem]
  constructor
  · intro h j s hg
    exact h (j, s) ((mem_buildSymbolicAxis shape j s).mpr hg)
  · intro h p hp
    exact h p.1 p.2 ((mem_buildSymbolicAxis shape p.1 p.2).mp hp)

theorem dictFind_dictInsert_self {α : Type} (d : List (String × α)) (k : String)
    (v : α) : dictFind (dictInsert d k v) k = some v := by
  induction d with
  | nil => simp [dictInsert, dictFind]
  | cons p rest ih =>
      rcases p with ⟨pk, pv⟩
      by_cases h : pk = k <;> simp [dictInsert, dictFind, h, ih]

theorem dictFind_dictInsert_ne {α : Type} (d : List (String × α)) (k k2 : String)
    (v : α) (h : k2 ≠ k) : dictFind (dictInsert d k v) k2 = dictFind d k2 := by
  have h2 : ¬ k = k2 := fun he => h he.symm
  induction d with
  | nil => simp [dictInsert, dictFind, h2]
  | cons p rest ih =>
      rcases p with ⟨pk, pv⟩
      by_cases hp : pk = k
      · subst hp
        simp [dictInsert, dictFind, h2]
      · simp [dictInsert, dictFind, hp, ih]

theorem addAxes_notmem (specs : List TensorSpec) :
    ∀ (d : List (String × List (Nat × String))) (name : String),
      name ∉ specs.map TensorSpec.name_ →
      dictFind (addAxes d specs) name = dictFind d name := by
  induction specs with
  | nil => intro d name _; rfl
  | cons spec rest ih =>
      intro d name h
      rw [List.map_cons, List.mem_cons] at h
      push_neg at h
      rw [addAxes, ih _ name h.2]
      by_cases hl : (buildSymbolicAxis spec.shape_).length ≠ 0
      · rw [if_pos hl]
        exact dictFind_dictInsert_ne d spec.name_ name _ h.1
      · rw [if_neg hl]

theorem addAxes_mem (specs : List TensorSpec) :
    ∀ (d : List (String × List (Nat × String))) (spec : TensorSpec),
      spec ∈ specs → (specs.map TensorSpec.name_).Nodup →
      dictFind (addAxes d specs) spec.name_ =
        if buildSymbolicAxis spec.shape_ = []
        then dictFind d spec.name_
        else some (buildSymbolicAxis spec.shape_) := by
  induction specs with
  | nil => intro d spec h; cases h
  | cons s0 rest ih =>
      intro d spec hmem hnd
      rw [List.map_cons, List.nodup_cons] at hnd
      rcases List.mem_cons.mp hmem with heq | hmem2
      · subst heq
        rw [addAxes, addAxes_notmem rest _ spec.name_ hnd.1]
        by_cases hl : buildSymbolicAxis spec.shape_ = []
        · rw [if_pos hl]
          rw [if_neg (by simp [hl])]
        · rw [if_neg hl]
          rw [if_pos (by simpa using fun h => hl (List.length_eq_zero.mp h))]
          exact dictFind_dictInsert_self d spec.name_ _
      · have hne : spec.name_ ≠ s0.name_ := by
          intro he
          exact hnd.1 (he ▸ List.mem_map_of_mem TensorSpec.name_ hmem2)
        rw [addAxes, ih _ spec hmem2 hnd.2]
        by_cases hl : buildSymbolicAxis spec.shape_ = []
        · rw [if_pos hl, if_pos hl]
          by_cases hl0 : (buildSymbolicAxis s0.shape_).length ≠ 0
          · rw [if_pos hl0]
            exact dictFind_dictInsert_ne d s0.name_ spec.name_ _ hne
          · rw [if_neg hl0]
        · rw [if_neg hl, if_neg hl]

/-- C4 (amended): provided the tensor names are pairwise distinct across
the concatenation of the inputs and outputs lists, every `TensorSpec` with
at least one string (symbolic) dimension has an entry in the derived
dynamic-axis map containing exactly the pairs (index, symbol) of its string
dimensions, and a `TensorSpec` with no string dimension has no entry at all
in the map. (Without the distinctness proviso the claim fails: the output
scan overwrites an input entry of the same name — see the counterexample.) -/
theorem c4_dynamic_axis_map (desc : ModelDesc)
    (hnd : ((desc.inputs_ ++ desc.outputs_).map TensorSpec.name_).Nodup)
    (spec : TensorSpec) (hmem : spec ∈ desc.inputs_ ++ desc.outputs_) :
    ((∃ (j : Nat) (s : String), spec.shape_[j]? = some (Dim.symbolic s)) →
      ∃ sa, dictFind (buildDynamicAxes desc) spec.name_ = some sa ∧
        ∀ (j : Nat) (s : String),
          ((j, s) ∈ sa ↔ spec.shape_[j]? = some (Dim.symbolic s))) ∧
    ((∀ (j : Nat) (s : String), spec.shape_[j]? ≠ some (Dim.symbolic s)) →
      dictFind (buildDynamicAxes desc) spec.name_ = none) := by
  rw [List.map_append, List.nodup_append] at hnd
  obtain ⟨hndIn, hndOut, hdisj⟩ := hnd
  have key : dictFind (buildDynamicAxes desc) spec.name_ =
      if buildSymbolicAxis spec.shape_ = [] then none
      else some (buildSymbolicAxis spec.shape_) := by
    rcases List.mem_append.mp hmem with hin | hout
    · have hnotout : spec.name_ ∉ desc.outputs_.map TensorSpec.name_ := by
        intro hmem2
        exact hdisj (List.mem_map_of_mem TensorSpec.name_ hin) hmem2
      rw [buildDynamicAxes, addAxes_notmem desc.outputs_ _ spec.name_ hnotout,
        addAxes_mem desc.inputs_ [] spec hin hndIn]
      by_cases hl : buildSymbolicAxis spec.shape_ = []
      · rw [if_pos hl, if_pos hl]; rfl
      · rw [if_neg hl, if_neg hl]
    · have hnotin : spec.name_ ∉ desc.inputs_.map TensorSpec.name_ := by
        intro hmem2
        exact hdisj hmem2 (List.mem_map_of_mem TensorSpec.name_ hout)
      rw [buildDynamicAxes, addAxes_mem desc.outputs_ _ spec hout hndOut]
      by_cases hl : buildSymbolicAxis spec.shape_ = []
      · rw [if_pos hl, if_pos hl,
          addAxes_notmem desc.inputs_ [] spec.name_ hnotin]
        rfl
      · rw [if_neg hl, if_neg hl]
  constructor
  · intro hex
    have hne : buildSymbolicAxis spec.shape_ ≠ [] := by
      rcases hex with ⟨j, s, hg⟩
      intro h0
      exact (buildSymbolicAxis_eq_nil spec.shape_).mp h0 j s hg
    rw [key, if_neg hne]
    exact ⟨buildSymbolicAxis spec.shape_, rfl,
      fun j s => mem_buildSymbolicAxis spec.shape_ j s⟩
  · intro hall
    rw [key, if_pos ((buildSymbolicAxis_eq_nil spec.shape_).mpr hall)]

/-- The counterexample descriptor for C4: the name `x` appears both as an
input (symbolic dimension at index 0) and as an output (symbolic dimension
at index 1). Both lists are valid per the descriptor rules (names unique
within each list). -/
def c4Desc : ModelDesc :=
  { inputs_ := [{ name_ := "x", shape_ := [Dim.symbolic "b"] }],
    outputs_ := [{ name_ := "x", shape_ := [Dim.static 2, Dim.symbolic "c"] }] }

/-- C4 counterexample: on `c4Desc` the claim fails as stated. The input
spec `x` has the string dimension `b` at index 0, so the claim requires
its map entry to contain exactly `(0, b)` — but the output scan (lines
180-186) overwrites the dict entry written by the input scan, and the
final map carries `x` to `[(1, c)]`, which does not contain `(0, b)`. -/
theorem c4_counterexample :
    ({ name_ := "x", shape_ := [Dim.symbolic "b"] } : TensorSpec) ∈ c4Desc.inputs_ ∧
    ({ name_ := "x", shape_ := [Dim.symbolic "b"] } : TensorSpec).shape_[0]? =
      some (Dim.symbolic "b") ∧
    dictFind (buildDynamicAxes c4Desc) "x" = some [(1, "c")] ∧
    ¬ ((0, "b") ∈ [((1 : Nat), "c")]) :=
  ⟨by decide, by decide, by decide, by decide⟩

/-- The spec's own axis-extraction example as a concrete descriptor with
distinct names: input `x` of shape `["batch", 128]`, output `y` of static
shape `[1]`. -/
def c4WDesc : ModelDesc :=
  { inputs_ := [{ name_ := "x", shape_ := [Dim.symbolic "batch", Dim.static 128] }],
    outputs_ := [{ name_ := "y", shape_ := [Dim.static 1] }] }

/-- A concrete run of the amended C4 statement on `c4WDesc`: the input `x`
gets an entry holding exactly its symbolic dimension, and the all-static
output `y` has no entry. -/
theorem c4_dynamic_axis_map_witness :
    ((c4WDesc.inputs_ ++ c4WDesc.outputs_).map TensorSpec.name_).Nodup ∧
    ({ name_ := "x", shape_ := [Dim.symbolic "batch", Dim.static 128] } : TensorSpec) ∈
      c4WDesc.inputs_ ++ c4WDesc.outputs_ ∧
    (∃ sa, dictFind (buildDynamicAxes c4WDesc) "x" = some sa ∧
      ∀ (j : Nat) (s : String), ((j, s) ∈ sa ↔
        ([Dim.symbolic "batch", Dim.static 128] : List Dim)[j]? =
          some (Dim.symbolic s))) :=
  ⟨by decide, by decide,
   (c4_dynamic_axis_map c4WDesc (by decide)
      { name_ := "x", shape_ := [Dim.symbolic "batch", Dim.static 128] }
      (by decide)).1 ⟨0, "batch", rfl⟩⟩
